import Mathlib

/- Verification of the vector_search_playground command-line tool.

   The tool (src/main.rs, plus a sea-orm migration crate) stores short texts
   together with dense embeddings in Postgres and in an Elasticsearch knn
   index, and supports approximate nearest-neighbor search.  The embedding
   below models the four CLI subcommands as the sequences of effects they
   perform against the external systems, with fallible calls modelled by a
   step cutoff: the Rust question-mark operator aborts the arm at the first
   failing call, so the performed effects are always a prefix of the full
   effect sequence of the arm.

   The nearest-neighbor search itself is delegated to the external engine;
   where a claim concerns that missing component, a definition modelled from
   the specification is used and marked as such. -/

namespace VSP

/-- Embedding dimensionality, main.rs line 20 (MODEL_DIM is 384). -/
def MODEL_DIM : Nat := 384

/-- Name of the single collection, main.rs line 19. -/
def DEFAULT_COLLECTION_NAME : String := "search"

/-- Failure of the external embedding model (the fastembed call in
main.rs line 74 can fail). -/
inductive EmbedErr where
  | modelFailure (msg : String)
deriving DecidableEq

/-- The common CLI arguments, main.rs lines 29-37.  The f32 threshold is
modelled as a rational number; it defaults to 0.6 and is therefore
normally present. -/
structure CliArgs where
  database_url : String
  elastic_url : String
  threshold : Option ℚ
deriving DecidableEq

/-- main.rs lines 70-75: embed_batch returns Ok of the empty list on empty
input, and otherwise defers to the embedder (the global fastembed model,
here passed explicitly as a function argument). -/
def embed_batch (embedder : List String → Except EmbedErr (List (List ℚ)))
    (texts : List String) : Except EmbedErr (List (List ℚ)) :=
  if texts.isEmpty then Except.ok [] else embedder texts

/-- The knn search request body built in main.rs lines 161-169.  The JSON
object has exactly these fields (besides the source filter); in particular
it carries no score or threshold bound. -/
structure KnnQuery where
  field : String
  query_vector : List ℚ
  k : Nat
  num_candidates : Nat
deriving DecidableEq

/-- main.rs lines 159-169: the knn body sent to the engine.  The field is
the literal string vector, k is the requested top_k, and num_candidates is
the literal 100. -/
def searchKnnBody (queryVec : List ℚ) (topK : Nat) : KnnQuery :=
  { field := "vector", query_vector := queryVec, k := topK, num_candidates := 100 }

/-- A search engine response: either hits, each a document id with score and
content, or an error with HTTP status and error type, as the engine answers
a search against a missing index (main.rs lines 170-173 parse the response
body as JSON whatever its status). -/
inductive EsSearchResponse where
  | hits (results : List (String × ℚ × String))
  | error (status : Nat) (errType : String)
deriving DecidableEq

/-- Observable effects of one CLI invocation against the external systems
(the embedder, the Postgres store and the Elasticsearch index). -/
inductive Effect where
  | existsCheck (collection : String)
  | createCollection (collection : String) (dims : Nat) (similarity : String)
  | deleteCollection (collection : String)
  | embedText (text : String)
  | storeInsert (id : Nat) (vector : List ℚ) (content : String)
  | indexAdd (collection : String) (id : Nat) (vector : List ℚ) (content : String)
  | catIndices
  | storeCount
  | esSearch (body : KnnQuery)
  | printOut (line : String)
  | printCount (n : Nat)
  | printResp (resp : EsSearchResponse)
deriving DecidableEq

/-- The full effect sequence of the Create arm, main.rs lines 105-151:
check whether the index exists; create it (dimension 384, cosine
similarity) only when it does not; embed the content; insert the row into
the store; add the document to the index; report completion.  Record ids
are 128-bit UUID values modelled as naturals. -/
def createFullTrace (content : String) (uuid : Nat) (emb : List ℚ)
    (indexExists : Bool) : List Effect :=
  Effect.existsCheck DEFAULT_COLLECTION_NAME ::
    ((if indexExists then []
      else [Effect.createCollection DEFAULT_COLLECTION_NAME MODEL_DIM "cosine"]) ++
      [Effect.embedText content,
       Effect.storeInsert uuid emb content,
       Effect.indexAdd DEFAULT_COLLECTION_NAME uuid emb content,
       Effect.printOut "done."])

/-- Effects actually performed by the Create arm when execution stops after
steps calls: each external call carries the question-mark operator, so a
failure at any point aborts the arm and the performed effects form a prefix
of the full sequence. -/
def createTrace (content : String) (uuid : Nat) (emb : List ℚ)
    (indexExists : Bool) (steps : Nat) : List Effect :=
  (createFullTrace content uuid emb indexExists).take steps

/-- The Collections arm, main.rs lines 94-104: list the indices and print
the rendered answer. -/
def collectionsTrace (rendered : String) (steps : Nat) : List Effect :=
  ([Effect.catIndices, Effect.printOut rendered]).take steps

/-- The Count arm, main.rs lines 152-155: count the store rows and print
the number. -/
def countTrace (rows : Nat) (steps : Nat) : List Effect :=
  ([Effect.storeCount, Effect.printCount rows]).take steps

/-- The Search arm, main.rs lines 156-176: embed the query, send the knn
request, and print the parsed response verbatim.  The engine response is a
parameter; the arm applies no transformation to it and performs no
collection-existence check of its own. -/
def searchTrace (query : String) (emb : List ℚ) (topK : Nat)
    (resp : EsSearchResponse) (steps : Nat) : List Effect :=
  ([Effect.embedText query,
    Effect.esSearch (searchKnnBody emb topK),
    Effect.printResp resp]).take steps

/-- The Search arm as a function of the parsed CLI arguments: the match arm
in main.rs lines 156-176 reads only the query text and top_k of the Search
subcommand; the threshold field of CliArgs is never consulted. -/
def searchCommand (args : CliArgs) (query : String) (topK : Nat)
    (emb : List ℚ) (resp : EsSearchResponse) (steps : Nat) : List Effect :=
  searchTrace query emb topK resp steps

/-- A stored record: id (UUID as a natural), embedding vector, text
content, as both the Postgres row (main.rs lines 133-137) and the indexed
document (main.rs lines 142-148) carry them. -/
structure Record where
  id : Nat
  vector : List ℚ
  content : String
deriving DecidableEq

/-- Joint state of the Postgres store and the Elasticsearch index. -/
structure SysState where
  store : List Record
  index : List Record
deriving DecidableEq

/-- Initial state: both systems empty. -/
def initState : SysState := { store := [], index := [] }

/-- A completed CLI invocation.  For create, the embedding computed for the
content and the generated UUID are recorded as parameters. -/
inductive Op where
  | create (content : String) (emb : List ℚ) (uuid : Nat)
  | collections
  | count
  | search (query : String) (topK : Nat)

/-- State transition of one completed invocation: the Create arm appends
the same id, vector and content to the store row and to the index document
(main.rs lines 130-148); the other arms are read-only. -/
def applyOp (s : SysState) : Op → SysState
  | Op.create content emb uuid =>
      { store := s.store ++ [{ id := uuid, vector := emb, content := content }],
        index := s.index ++ [{ id := uuid, vector := emb, content := content }] }
  | Op.collections => s
  | Op.count => s
  | Op.search _ _ => s

/-- Runs a sequence of completed invocations. -/
def runOps : SysState → List Op → SysState
  | s, [] => s
  | s, op :: ops => runOps (applyOp s op) ops

/-- The ids generated by the create invocations of a sequence, in order. -/
def createIds : List Op → List Nat
  | [] => []
  | Op.create _ _ uuid :: ops => uuid :: createIds ops
  | Op.collections :: ops => createIds ops
  | Op.count :: ops => createIds ops
  | Op.search _ _ :: ops => createIds ops

/-- Models Uuid::now_v7 (main.rs line 131) as a 128-bit natural in the RFC
9562 layout: 48-bit Unix millisecond timestamp, 4-bit version 7, 12 random
bits, 2-bit variant, 62 random bits.  Each invocation draws fresh random
bits; the uuid crate derives no counter from earlier calls here, so two
calls in the same millisecond are ordered only by their random bits. -/
def uuidNowV7 (unixTsMs randA randB : Nat) : Nat :=
  (unixTsMs % 2 ^ 48) * 2 ^ 80 + 7 * 2 ^ 76 + (randA % 2 ^ 12) * 2 ^ 64 +
    2 * 2 ^ 62 + randB % 2 ^ 62

/-- Better-first ranking on scored candidates, id and score: a candidate
ranks at least as well as another when its score is strictly higher, or the
scores tie and its id is at most the other id.  Scores are presented in the
uniform better-is-higher convention of the specification. -/
def rankLE (a b : Nat × ℚ) : Prop :=
  b.2 < a.2 ∨ (a.2 = b.2 ∧ a.1 ≤ b.1)

instance : DecidableRel rankLE := fun a b =>
  decidable_of_iff (b.2 < a.2 ∨ (a.2 = b.2 ∧ a.1 ≤ b.1)) Iff.rfl

instance : IsTotal (Nat × ℚ) rankLE where
  total a b := by
    rcases lt_trichotomy a.2 b.2 with h | h | h
    · exact Or.inr (Or.inl h)
    · rcases Nat.le_total a.1 b.1 with hn | hn
      · exact Or.inl (Or.inr ⟨h, hn⟩)
      · exact Or.inr (Or.inr ⟨h.symm, hn⟩)
    · exact Or.inl (Or.inl h)

instance : IsTrans (Nat × ℚ) rankLE where
  trans a b c hab hbc := by
    rcases hab with h1 | ⟨he1, hi1⟩ <;> rcases hbc with h2 | ⟨he2, hi2⟩
    · exact Or.inl (h2.trans h1)
    · exact Or.inl (he2 ▸ h1)
    · exact Or.inl (lt_of_lt_of_le h2 (le_of_eq he1.symm))
    · exact Or.inr ⟨he1.trans he2, hi1.trans hi2⟩

/-- Modelled from the spec: the Similarity Index Query operation.  The
repository delegates nearest-neighbor search entirely to the external
engine (main.rs lines 159-173 only issue a knn request), so no in-repo
implementation exists; this definition follows sections 4.2 and 3 of the
specification: score every entry under the metric against the query,
exclude entries worse than the threshold when one is supplied, sort the
survivors better-first with ties broken by ascending id, then truncate to
the requested k. -/
def indexQuery (metric : List ℚ → List ℚ → ℚ) (entries : List (Nat × List ℚ))
    (q : List ℚ) (k : Nat) (threshold : Option ℚ) : List (Nat × ℚ) :=
  let scored := entries.map fun e => (e.1, metric q e.2)
  let kept := match threshold with
    | none => scored
    | some t => scored.filter fun p => decide (t ≤ p.2)
  (List.insertionSort rankLE kept).take k

/- ------------------------------------------------------------------ -/
/- Helper lemmas                                                      -/
/- ------------------------------------------------------------------ -/

lemma indexQuery_sorted (metric : List ℚ → List ℚ → ℚ)
    (entries : List (Nat × List ℚ)) (q : List ℚ) (k : Nat)
    (t : Option ℚ) : List.Sorted rankLE (indexQuery metric entries q k t) := by
  have h := List.sorted_insertionSort rankLE
    (match t with
      | none => entries.map fun e => (e.1, metric q e.2)
      | some t => (entries.map fun e => (e.1, metric q e.2)).filter
          fun p => decide (t ≤ p.2))
  exact List.Pairwise.sublist (List.take_sublist k _) h

/- ------------------------------------------------------------------ -/
/- Claim theorems                                                     -/
/- ------------------------------------------------------------------ -/

/-- C4: embed_batch applied to the empty list of texts returns Ok of the
empty list, and does so without invoking the embedding model: the result
does not depend on the embedder at all. -/
theorem embed_batch_empty_noop :
    (∀ embedder, embed_batch embedder [] = Except.ok []) ∧
      ∀ e1 e2, embed_batch e1 [] = embed_batch e2 [] := by
  constructor
  · intro embedder
    rfl
  · intro e1 e2
    rfl

/-- C10: the knn request is issued with a fixed candidate-list size of 100,
regardless of the requested top_k; in particular a request with top_k equal
to 250 still carries num_candidates 100. -/
theorem num_candidates_fixed_100 :
    (∀ v k, (searchKnnBody v k).num_candidates = 100) ∧
      (searchKnnBody [] 250).num_candidates = 100 ∧
      (searchKnnBody [] 250).k = 250 := by
  refine ⟨fun v k => rfl, rfl, rfl⟩

/-- C1 (code bug): the Search arm never reads the threshold argument: the
effect sequence of a search is identical for any two threshold values, and
at the concrete failing input, a search run with threshold nine tenths
against an engine answer whose single hit scores one tenth still prints
that out-of-threshold hit.  No filtering step exists between the knn
request and the printed response. -/
theorem threshold_flag_never_applied :
    (∀ dbu esu t1 t2 q k emb r steps,
        searchCommand (CliArgs.mk dbu esu t1) q k emb r steps =
          searchCommand (CliArgs.mk dbu esu t2) q k emb r steps) ∧
      searchCommand (CliArgs.mk "db" "es" (some (9 / 10))) "q" 10 []
          (EsSearchResponse.hits [("doc1", 1 / 10, "far away text")]) 3 =
        [Effect.embedText "q",
         Effect.esSearch (KnnQuery.mk "vector" [] 10 100),
         Effect.printResp (EsSearchResponse.hits [("doc1", 1 / 10, "far away text")])] := by
  constructor
  · intro dbu esu t1 t2 q k emb r steps
    rfl
  · rfl

lemma not_mem_take {α : Type} (x : α) (n : Nat) (l : List α) (h : x ∉ l) :
    x ∉ l.take n :=
  fun hmem => h (List.mem_of_mem_take hmem)

lemma runOps_store_eq_index (ops : List Op) (s : SysState)
    (h : s.store = s.index) : (runOps s ops).store = (runOps s ops).index := by
  induction ops generalizing s with
  | nil => exact h
  | cons op ops ih =>
    simp only [runOps]
    exact ih _ (by cases op <;> simp [applyOp, h])

lemma runOps_store_ids (ops : List Op) (s : SysState) :
    (runOps s ops).store.map Record.id = s.store.map Record.id ++ createIds ops := by
  induction ops generalizing s with
  | nil => simp [runOps, createIds]
  | cons op ops ih =>
    cases op <;> simp [runOps, applyOp, createIds, ih]

lemma filter_id_of_nodup (l : List Record) (r : Record)
    (hnd : (l.map Record.id).Nodup) (hr : r ∈ l) :
    l.filter (fun e => e.id == r.id) = [r] := by
  induction l with
  | nil => cases hr
  | cons a l ih =>
    simp only [List.map_cons, List.nodup_cons] at hnd
    rcases List.mem_cons.mp hr with rfl | hr2
    · have hnone : l.filter (fun e => e.id == r.id) = [] := by
        refine List.filter_eq_nil_iff.mpr ?_
        intro e he
        simp only [beq_iff_eq]
        intro heq
        exact hnd.1 (heq ▸ List.mem_map_of_mem Record.id he)
      simp [List.filter_cons, hnone]
    · have hne : ¬ (a.id == r.id) = true := by
        simp only [beq_iff_eq]
        intro heq
        exact hnd.1 (heq ▸ List.mem_map_of_mem Record.id hr2)
      simp [List.filter_cons, hne, ih hnd.2 hr2]

/-- C2: in the Create arm, the durable store insert happens before the
index add: for every execution prefix (whatever the outcome of the
fallible calls, modelled by the step cutoff), if the index add for the
record has been performed, then the store insert for the same id, vector
and content was performed earlier in the same prefix.  A crash between the
two steps can leave a stored row without an index document, but never an
index document without a stored row. -/
theorem store_insert_precedes_index_add (content : String) (uuid : Nat)
    (emb : List ℚ) (indexExists : Bool) (steps : Nat)
    (h : Effect.indexAdd DEFAULT_COLLECTION_NAME uuid emb content ∈
      createTrace content uuid emb indexExists steps) :
    Effect.storeInsert uuid emb content ∈
      createTrace content uuid emb indexExists steps := by
  cases indexExists <;>
    rcases steps with _ | _ | _ | _ | _ | _ | steps <;>
      simp_all [createTrace, createFullTrace, List.take_succ_cons]

/-- C2 witness: a fully completed create with the index already present
performs the index add, and the store insert is in the same prefix. -/
theorem store_insert_precedes_index_add_witness :
    Effect.indexAdd DEFAULT_COLLECTION_NAME 1 [] "a" ∈ createTrace "a" 1 [] true 4 ∧
      Effect.storeInsert 1 [] "a" ∈ createTrace "a" 1 [] true 4 :=
  ⟨by decide, store_insert_precedes_index_add "a" 1 [] true 4 (by decide)⟩

/-- C3: after every completed sequence of operations whose generated ids
are pairwise distinct (UUID freshness), the store and the index hold
literally the same records, and each stored record has exactly one index
entry with its id, and that entry carries the same vector and content.  No
subcommand deletes records, so the not-explicitly-deleted proviso of the
claim is vacuous here. -/
theorem store_index_agree (ops : List Op) (hids : (createIds ops).Nodup)
    (r : Record) (hr : r ∈ (runOps initState ops).store) :
    (runOps initState ops).store = (runOps initState ops).index ∧
      (runOps initState ops).index.filter (fun e => e.id == r.id) = [r] := by
  have heq : (runOps initState ops).store = (runOps initState ops).index :=
    runOps_store_eq_index ops initState rfl
  have hmap : (runOps initState ops).store.map Record.id = createIds ops := by
    simpa [initState] using runOps_store_ids ops initState
  refine ⟨heq, ?_⟩
  rw [← heq]
  exact filter_id_of_nodup _ r (hmap.symm ▸ hids) hr

/-- C3 witness: two completed creates with distinct ids; the first record
has exactly its own index entry. -/
theorem store_index_agree_witness :
    ((createIds [Op.create "a" [] 1, Op.create "b" [] 2]).Nodup ∧
        Record.mk 1 [] "a" ∈
          (runOps initState [Op.create "a" [] 1, Op.create "b" [] 2]).store) ∧
      (runOps initState [Op.create "a" [] 1, Op.create "b" [] 2]).store =
          (runOps initState [Op.create "a" [] 1, Op.create "b" [] 2]).index ∧
        (runOps initState [Op.create "a" [] 1, Op.create "b" [] 2]).index.filter
            (fun e => e.id == (Record.mk 1 [] "a").id) = [Record.mk 1 [] "a"] :=
  ⟨⟨by decide, by decide⟩, store_index_agree _ (by decide) _ (by decide)⟩

/-- C5: the collection is created exactly on a first write: a create run
against a missing index issues the create-collection call as soon as
execution passes the existence check, a create run against an existing
index never issues any create-collection call (and so neither re-creates
nor alters the collection), and no arm of any subcommand ever issues a
delete-collection call. -/
theorem collection_create_idempotent (content : String) (uuid : Nat)
    (emb emb2 : List ℚ) (steps rows k : Nat) (q rendered name2 : String)
    (d : Nat) (sim : String) (r : EsSearchResponse) :
    (2 ≤ steps →
        Effect.createCollection DEFAULT_COLLECTION_NAME MODEL_DIM "cosine" ∈
          createTrace content uuid emb false steps) ∧
      Effect.createCollection name2 d sim ∉ createTrace content uuid emb true steps ∧
      Effect.deleteCollection name2 ∉ createTrace content uuid emb false steps ∧
      Effect.deleteCollection name2 ∉ createTrace content uuid emb true steps ∧
      Effect.deleteCollection name2 ∉ collectionsTrace rendered steps ∧
      Effect.deleteCollection name2 ∉ countTrace rows steps ∧
      Effect.deleteCollection name2 ∉ searchTrace q emb2 k r steps := by
  refine ⟨?_, ?_, ?_, ?_, ?_, ?_, ?_⟩
  · intro h
    rcases steps with _ | _ | steps
    · omega
    · omega
    · simp [createTrace, createFullTrace, List.take_succ_cons]
  · exact not_mem_take _ _ _ (by simp [createFullTrace])
  · exact not_mem_take _ _ _ (by simp [createFullTrace])
  · exact not_mem_take _ _ _ (by simp [createFullTrace])
  · exact not_mem_take _ _ _ (by simp)
  · exact not_mem_take _ _ _ (by simp)
  · exact not_mem_take _ _ _ (by simp)

/-- C5 witness: a completed create against a missing index creates the
collection; a create against an existing index performs no delete. -/
theorem collection_create_idempotent_witness :
    Effect.createCollection DEFAULT_COLLECTION_NAME MODEL_DIM "cosine" ∈
        createTrace "a" 1 [] false 6 ∧
      Effect.deleteCollection "x" ∉ createTrace "a" 1 [] true 5 :=
  ⟨(collection_create_idempotent "a" 1 [] [] 6 0 0 "q" "rend" "x" 0 "c"
      (EsSearchResponse.hits [])).1 (by decide),
    (collection_create_idempotent "a" 1 [] [] 5 0 0 "q" "rend" "x" 0 "c"
      (EsSearchResponse.hits [])).2.2.2.1⟩

/-- C6: the Query operation of the spec-modelled similarity index returns
at most k results, ordered best-first (each result ranks at least as well
as the next under the better-first relation), for every query vector of
the configured dimension, every metric, every entry set and every
threshold. -/
theorem indexQuery_at_most_k_sorted (metric : List ℚ → List ℚ → ℚ)
    (entries : List (Nat × List ℚ)) (q : List ℚ) (k : Nat) (t : Option ℚ)
    (hdim : q.length = MODEL_DIM) :
    (indexQuery metric entries q k t).length ≤ k ∧
      List.Sorted rankLE (indexQuery metric entries q k t) :=
  ⟨List.length_take_le k _, indexQuery_sorted metric entries q k t⟩

/-- C6 witness: a 384-dimensional zero query over one entry with k equal
to one. -/
theorem indexQuery_at_most_k_sorted_witness :
    (List.replicate 384 (0 : ℚ)).length = MODEL_DIM ∧
      (indexQuery (fun _ _ => 0) [(1, [])] (List.replicate 384 0) 1 none).length ≤ 1 ∧
        List.Sorted rankLE
          (indexQuery (fun _ _ => 0) [(1, [])] (List.replicate 384 0) 1 none) :=
  ⟨(by rw [ List.length_replicate, MODEL_DIM]),
    indexQuery_at_most_k_sorted (fun _ _ => 0) [(1, [])] (List.replicate 384 0) 1 none
      (by rw [ List.length_replicate, MODEL_DIM])⟩

/-- C7: in the spec-modelled similarity index, candidates with identical
scores are returned in ascending id order: every adjacent pair of results
with tied scores is id-ascending, and in particular two records with the
same vector inserted under ids 5 and 3 come back with 3 before 5, for any
metric. -/
theorem indexQuery_tie_break_id_asc (metric : List ℚ → List ℚ → ℚ)
    (entries : List (Nat × List ℚ)) (q v : List ℚ) (k : Nat) (t : Option ℚ) :
    List.Pairwise (fun a b => a.2 = b.2 → a.1 ≤ b.1)
        (indexQuery metric entries q k t) ∧
      indexQuery metric [(5, v), (3, v)] q 2 none =
        [(3, metric q v), (5, metric q v)] := by
  constructor
  · refine List.Pairwise.imp ?_ (indexQuery_sorted metric entries q k t)
    intro a b hab heq
    rcases hab with h1 | ⟨_, h2⟩
    · exact absurd (heq ▸ h1) (lt_irrefl _)
    · exact h2
  · have hno : ¬ rankLE (5, metric q v) (3, metric q v) := by
      unfold rankLE
      simp
    simp [indexQuery, List.insertionSort, List.orderedInsert, hno,
      List.take_succ_cons]

/-- C8 counterexample: two completed create invocations in the same
millisecond (timestamp 100), where the earlier invocation draws the larger
random field of the UUIDv7: the later record receives the numerically
smaller id, so ordering the two records by id inverts the insertion order;
ids do not make insertion order recoverable within one millisecond. -/
theorem uuid_same_ms_not_order_recoverable :
    (runOps initState
        [Op.create "first" [] (uuidNowV7 100 0 5),
         Op.create "second" [] (uuidNowV7 100 0 3)]).store.map Record.id =
      [uuidNowV7 100 0 5, uuidNowV7 100 0 3] ∧
      uuidNowV7 100 0 3 < uuidNowV7 100 0 5 :=
  ⟨by decide, by decide⟩

/-- C8 amended: record ids are UUIDv7 values; across create invocations
whose millisecond timestamps differ (both within the 48-bit range) the
earlier invocation receives the strictly smaller id, so insertion order is
recoverable and ids never collide across distinct milliseconds; within one
millisecond order and uniqueness rest on the random bits only. -/
theorem uuid_monotone_across_ms (ts1 ts2 a1 b1 a2 b2 : Nat)
    (h1 : ts1 < ts2) (h2 : ts2 < 2 ^ 48) :
    uuidNowV7 ts1 a1 b1 < uuidNowV7 ts2 a2 b2 := by
  unfold uuidNowV7
  have e1 : ts1 % 2 ^ 48 = ts1 := Nat.mod_eq_of_lt (lt_trans h1 h2)
  have e2 : ts2 % 2 ^ 48 = ts2 := Nat.mod_eq_of_lt h2
  rw [e1, e2]
  omega

/-- C8 witness: consecutive milliseconds give strictly increasing ids. -/
theorem uuid_monotone_across_ms_witness :
    100 < 101 ∧ 101 < 2 ^ 48 ∧ uuidNowV7 100 0 0 < uuidNowV7 101 0 0 :=
  ⟨by decide, by decide,
    uuid_monotone_across_ms 100 101 0 0 0 0 (by decide) (by decide)⟩

/-- C9 counterexample: when the engine answers a search against the
missing collection with its not-found error (HTTP 404,
index_not_found_exception), the completed Search arm prints exactly that
raw error response; in particular no empty result set is printed, so the
claim that the operation returns an empty result set fails on the code. -/
theorem search_missing_collection_prints_raw_error :
    searchTrace "q" [] 10 (EsSearchResponse.error 404 "index_not_found_exception") 3 =
      [Effect.embedText "q",
       Effect.esSearch (KnnQuery.mk "vector" [] 10 100),
       Effect.printResp (EsSearchResponse.error 404 "index_not_found_exception")] ∧
      Effect.printResp (EsSearchResponse.hits []) ∉
        searchTrace "q" [] 10
          (EsSearchResponse.error 404 "index_not_found_exception") 3 :=
  ⟨rfl, by decide⟩

/-- C9 amended: the Search arm forwards the engine response verbatim:
whatever response the arm prints is exactly the raw engine response, with
no collection-existence handling and no substitution of an empty result
set; for a missing collection the user therefore sees the engine error
naming index_not_found, not an empty result set. -/
theorem search_output_is_raw_response (q : String) (emb : List ℚ)
    (k steps : Nat) (r x : EsSearchResponse)
    (h : Effect.printResp x ∈ searchTrace q emb k r steps) : x = r := by
  have h2 := List.mem_of_mem_take h
  simp at h2
  exact h2

/-- C9 witness: a completed search printing the not-found error response
prints that very response. -/
theorem search_output_is_raw_response_witness :
    Effect.printResp (EsSearchResponse.error 404 "index_not_found_exception") ∈
        searchTrace "q" [] 5
          (EsSearchResponse.error 404 "index_not_found_exception") 3 ∧
      EsSearchResponse.error 404 "index_not_found_exception" =
        EsSearchResponse.error 404 "index_not_found_exception" :=
  ⟨by decide,
    search_output_is_raw_response "q" [] 5 3
      (EsSearchResponse.error 404 "index_not_found_exception")
      (EsSearchResponse.error 404 "index_not_found_exception") (by decide)⟩

end VSP
